import Mathlib

/-!
Shallow embedding of `src/structs.rs` of the eskom-calendar repository:
the conversion layer that turns raw, string-typed load-shedding records
(`RawShedding`, `RawMonthlyShedding`, `RawManuallyInputSchedule`) into their
parsed counterparts (`Shedding`, `MonthlyShedding`, `ManuallyInputSchedule`).

The Rust code delegates all time parsing to chrono:
* `DateTime::parse_from_rfc3339` — embedded here as `parseRFC3339`, following
  chrono's dedicated RFC 3339 scanner (`parse_rfc3339` in chrono's
  `format/parse.rs`): exactly-4-digit year, exactly-2-digit month, day, hour,
  minute and second, a mandatory `T`/`t` date-time separator, an optional
  fractional-second part (`.` followed by at least one digit; the first nine
  digits are significant, further digits are consumed and discarded), and a
  trailing offset that is either `Z`/`z` or `±HH:MM` with a mandatory colon.
  The whole input must be consumed.  Validation mirrors
  `Parsed::to_datetime`: a real proleptic-Gregorian calendar date, hour < 24,
  minute < 60, second ≤ 60 (a leap second `60` is stored by chrono as second
  59 with an extra 10^9 nanoseconds), and an offset of magnitude < 86400
  seconds (`FixedOffset::east_opt`).
* `NaiveTime::parse_from_str(s, "%H:%M")` — embedded as `parseHM`.  chrono's
  numeric items skip leading whitespace and accept one or two digits
  (`scan::number(s, 1, 2)`); the literal `:` must match exactly; the whole
  input must be consumed; hour < 24 and minute < 60 are enforced.

Rust panics (`unwrap` / `expect`, which the `From` impls use on every parse
failure) are modelled by the `PanicOr.panic` constructor; the panic message
is not modelled.  Machine integers (`u8` fields, copied verbatim) are
modelled as `Nat`.
-/

namespace EskomCalendar

/-- A parsed fixed-offset datetime, the embedding of chrono's
`DateTime<FixedOffset>`: a naive civil datetime plus an offset in seconds.
`nano` may reach 1999999999 for a parsed leap second, as in chrono. -/
structure DateTimeFO where
  year : Nat
  month : Nat
  day : Nat
  hour : Nat
  minute : Nat
  second : Nat
  nano : Nat
  offset : Int
deriving DecidableEq, Repr

/-- Outcome of a Rust computation that can panic: `.panic` models an
`unwrap`/`expect` failure aborting the conversion (the message is not
modelled), `.ok` a normal return. -/
inductive PanicOr (α : Type) where
  | panic : PanicOr α
  | ok (val : α) : PanicOr α
deriving DecidableEq, Repr

/-- Take up to `n` leading ASCII-digit characters (chrono's `scan::number`
consumes at most `max` digits and stops at the first non-digit). -/
def takeDigits : Nat → List Char → (List Char × List Char)
  | 0, cs => ([], cs)
  | _ + 1, [] => ([], [])
  | n + 1, c :: cs =>
    if c.isDigit then
      let (ds, rest) := takeDigits n cs
      (c :: ds, rest)
    else ([], c :: cs)

/-- Numeric value of a digit string, most significant digit first. -/
def digitsToNat (ds : List Char) : Nat :=
  ds.foldl (fun a c => a * 10 + (c.toNat - 48)) 0

/-- chrono `scan::number(s, lo, hi)`: consume between `lo` and `hi` leading
digits (as many as available, up to `hi`) and return their value with the
rest of the input; fail when fewer than `lo` digits are present. -/
def scanNum (lo hi : Nat) (cs : List Char) : Option (Nat × List Char) :=
  let (ds, rest) := takeDigits hi cs
  if lo ≤ ds.length then some (digitsToNat ds, rest) else none

/-- Consume one expected literal character. -/
def expectChar (c : Char) : List Char → Option (List Char)
  | [] => none
  | c' :: rest => if c' = c then some rest else none

/-- chrono RFC 3339 date-time separator: `T` or `t`. -/
def expectSep : List Char → Option (List Char)
  | [] => none
  | c :: rest => if c = 'T' ∨ c = 't' then some rest else none

/-- Optional fractional-second part, chrono's `scan::nanosecond`: a `.`
followed by at least one digit; the first nine digits are scaled to
nanoseconds and any further digits are consumed and ignored.  Without a
leading `.` the input is untouched and the nanosecond count is 0. -/
def scanFrac (cs : List Char) : Option (Nat × List Char) :=
  match cs with
  | '.' :: rest =>
    let (ds, rest') := takeDigits 9 rest
    if ds.length = 0 then none
    else some (digitsToNat ds * 10 ^ (9 - ds.length), rest'.dropWhile Char.isDigit)
  | _ => some (0, cs)

/-- chrono's RFC 3339 timezone offset: `Z`/`z` for +00:00, else a sign, two
digits, a mandatory colon, and two digits; the result is in seconds. -/
def scanOffset : List Char → Option (Int × List Char)
  | [] => none
  | c :: rest =>
    if c = 'Z' ∨ c = 'z' then some (0, rest)
    else if c = '+' ∨ c = '-' then
      match scanNum 2 2 rest with
      | none => none
      | some (h, cs1) =>
        match cs1 with
        | ':' :: cs2 =>
          match scanNum 2 2 cs2 with
          | none => none
          | some (m, cs3) =>
            let secs : Int := (h * 3600 + m * 60 : Nat)
            some (if c = '-' then -secs else secs, cs3)
        | _ => none
    else none

/-- Proleptic-Gregorian leap-year rule, as used by chrono's `NaiveDate`. -/
def isLeap (y : Nat) : Bool :=
  (y % 4 == 0 && y % 100 != 0) || y % 400 == 0

/-- Number of days in a month of the proleptic-Gregorian calendar. -/
def daysInMonth (y m : Nat) : Nat :=
  if m = 2 then (if isLeap y then 29 else 28)
  else if m = 4 ∨ m = 6 ∨ m = 9 ∨ m = 11 then 30
  else 31

/-- Validation performed by chrono's `Parsed::to_datetime` after the RFC 3339
scan: the date must exist in the calendar, hour < 24, minute < 60,
second ≤ 60 (60 is a leap second, stored as 59 plus 10^9 nanoseconds), and
the offset magnitude must be below 86400 seconds. -/
def mkDateTime (year month day hour minute second nano : Nat) (offset : Int) :
    Option DateTimeFO :=
  if 1 ≤ month ∧ month ≤ 12 ∧ 1 ≤ day ∧ day ≤ daysInMonth year month ∧
      hour < 24 ∧ minute < 60 ∧ second ≤ 60 ∧ offset.natAbs < 86400 then
    if second = 60 then
      some ⟨year, month, day, hour, minute, 59, nano + 1000000000, offset⟩
    else
      some ⟨year, month, day, hour, minute, second, nano, offset⟩
  else none

/-- Embedding of chrono's `parse_rfc3339` scanner on a character list. -/
def parseRFC3339Core (cs : List Char) : Option DateTimeFO := do
  let (year, cs) ← scanNum 4 4 cs
  let cs ← expectChar '-' cs
  let (month, cs) ← scanNum 2 2 cs
  let cs ← expectChar '-' cs
  let (day, cs) ← scanNum 2 2 cs
  let cs ← expectSep cs
  let (hour, cs) ← scanNum 2 2 cs
  let cs ← expectChar ':' cs
  let (minute, cs) ← scanNum 2 2 cs
  let cs ← expectChar ':' cs
  let (second, cs) ← scanNum 2 2 cs
  let (nano, cs) ← scanFrac cs
  let (offset, cs) ← scanOffset cs
  if cs = [] then mkDateTime year month day hour minute second nano offset
  else none

/-- Embedding of Rust `DateTime::parse_from_rfc3339`: the scan above, with
the whole input consumed. -/
def parseRFC3339 (s : String) : Option DateTimeFO :=
  parseRFC3339Core s.data

/-- Embedding of Rust `NaiveTime::parse_from_str(s, "%H:%M")` on a character
list: leading whitespace is skipped before each numeric item, `%H` and `%M`
each take one or two digits, the literal `:` matches exactly, the whole
input must be consumed, and hour/minute must be in range. -/
def parseHMCore (cs : List Char) : Option (Nat × Nat) := do
  let (h, cs) ← scanNum 1 2 (cs.dropWhile Char.isWhitespace)
  let cs ← expectChar ':' cs
  let (m, cs) ← scanNum 1 2 (cs.dropWhile Char.isWhitespace)
  if cs = [] ∧ h < 24 ∧ m < 60 then some (h, m) else none

/-- `NaiveTime::parse_from_str(s, "%H:%M")` on a string; the result is the
(hour, minute) pair of the parsed `NaiveTime` (seconds default to 0). -/
def parseHM (s : String) : Option (Nat × Nat) :=
  parseHMCore s.data

/-- chrono's `NaiveTime` order restricted to whole minutes: lexicographic on
(hour, minute).  This is the `finsh < start` comparison of `structs.rs`
line 126. -/
def timeLt (a b : Nat × Nat) : Bool :=
  decide (a.1 < b.1) || (decide (a.1 = b.1) && decide (a.2 < b.2))

/-- chrono's `%H`/`%M` zero-padded two-digit rendering of a value < 100. -/
def pad2 (n : Nat) : String :=
  String.mk [Char.ofNat (48 + n / 10), Char.ofNat (48 + n % 10)]

/-- Re-formatting a parsed (hour, minute) time-of-day back to 24-hour
zero-padded `"HH:MM"`, i.e. chrono's `format("%H:%M")`. -/
def formatHM (t : Nat × Nat) : String :=
  pad2 t.1 ++ ":" ++ pad2 t.2

/-- Days in the proleptic-Gregorian years 0, …, y − 1. -/
def daysBeforeYear (y : Nat) : Nat :=
  365 * y + ((y + 3) / 4 + (y + 399) / 400 - (y + 99) / 100)

/-- Days in the months 1, …, m − 1 of year `y`. -/
def daysBeforeMonth (y m : Nat) : Nat :=
  (List.range (m - 1)).foldl (fun a i => a + daysInMonth y (i + 1)) 0

/-- The instant of a `DateTimeFO` in seconds since 1970-01-01T00:00:00Z
(ignoring the sub-second part), as chrono's timeline comparison does:
the naive civil time in seconds minus the offset. -/
def toEpochSecs (d : DateTimeFO) : Int :=
  (((daysBeforeYear d.year + daysBeforeMonth d.year d.month + (d.day - 1) : Nat) : Int)
      - 719528) * 86400
    + ((d.hour * 3600 + d.minute * 60 + d.second : Nat) : Int)
    - d.offset

/-- chrono `b.signed_duration_since a` in whole seconds: the duration from
`a` to `b` (`finish - start` when called as `durSecs start finish`). -/
def durSecs (a b : DateTimeFO) : Int :=
  toEpochSecs b - toEpochSecs a

/-- `RawShedding` of `structs.rs`: a single load-shedding window as received,
with string-typed times.  `finsh` is spelt without the second `i` in the
source so that it lines up with `start`. -/
structure RawShedding where
  start : String
  finsh : String
  stage : Nat
  source : String
deriving DecidableEq, Repr

/-- `Shedding` of `structs.rs`: a single parsed load-shedding window. -/
structure Shedding where
  start : DateTimeFO
  finsh : DateTimeFO
  stage : Nat
  source : String
deriving DecidableEq, Repr

/-- `impl From<RawShedding> for Shedding` (`structs.rs` lines 63–84): appends
`"+02:00"` to each raw time string, parses it with
`DateTime::parse_from_rfc3339`, and panics (`.expect`) when a parse fails;
`stage` and `source` are copied unchanged.  The `start` field's parse is
evaluated first, then `finsh`'s. -/
def Shedding.fromRaw (raw : RawShedding) : PanicOr Shedding :=
  match parseRFC3339 (raw.start ++ "+02:00") with
  | none => .panic
  | some s =>
    match parseRFC3339 (raw.finsh ++ "+02:00") with
    | none => .panic
    | some f => .ok ⟨s, f, raw.stage, raw.source⟩

/-- `RawManuallyInputSchedule` of `structs.rs`. -/
structure RawManuallyInputSchedule where
  changes : List RawShedding
  historical_changes : List RawShedding
deriving DecidableEq, Repr

/-- `ManuallyInputSchedule` of `structs.rs`. -/
structure ManuallyInputSchedule where
  changes : List Shedding
  historical_changes : List Shedding
deriving DecidableEq, Repr

/-- Rust `iter().map(f).collect()` where `f` can panic: elements are
converted in sequence order and the first panic aborts the whole
collection. -/
def mapPanic (f : α → PanicOr β) : List α → PanicOr (List β)
  | [] => .ok []
  | x :: xs =>
    match f x with
    | .panic => .panic
    | .ok y =>
      match mapPanic f xs with
      | .panic => .panic
      | .ok ys => .ok (y :: ys)

/-- `impl From<RawManuallyInputSchedule> for ManuallyInputSchedule`
(`structs.rs` lines 23–34): maps the single-event conversion over `changes`
and over `historical_changes` independently; `changes` is evaluated first. -/
def ManuallyInputSchedule.fromRaw (raw : RawManuallyInputSchedule) :
    PanicOr ManuallyInputSchedule :=
  match mapPanic Shedding.fromRaw raw.changes with
  | .panic => .panic
  | .ok cs =>
    match mapPanic Shedding.fromRaw raw.historical_changes with
    | .panic => .panic
    | .ok hs => .ok ⟨cs, hs⟩

/-- `RawMonthlyShedding` of `structs.rs`: a monthly-recurring event with
`"HH:MM"` time-of-day strings. -/
structure RawMonthlyShedding where
  start_time : String
  finsh_time : String
  stage : Nat
  date_of_month : Nat
deriving DecidableEq, Repr

/-- `MonthlyShedding` of `structs.rs`: a parsed monthly-recurring event.
Its doc comments state that `start_time`'s date is always 1 Jan 1970, that
`finsh_time`'s date is 1 Jan 1970 unless the event goes over midnight (e.g.
22h00 to 00h30), in which case it is 2 Jan 1970, and that
`goes_over_midnight` is true iff finish time < start time. -/
structure MonthlyShedding where
  start_time : DateTimeFO
  finsh_time : DateTimeFO
  stage : Nat
  date_of_month : Nat
  goes_over_midnight : Bool
deriving DecidableEq, Repr

/-- `impl From<RawMonthlyShedding> for MonthlyShedding` (`structs.rs` lines
122–157): parses both raw strings with `"%H:%M"` (panicking on failure, start
first), sets `goes_over_midnight := finsh < start`, chooses the finish date
string `"01"` when `goes_over_midnight` and `"02"` otherwise — exactly as
line 128 does — and then re-parses the raw strings inside the RFC 3339
templates `1970-01-01T{start}:00+02:00` and `1970-01-{date}T{finsh}:00+02:00`,
panicking on failure (start first). -/
def MonthlyShedding.fromRaw (raw : RawMonthlyShedding) : PanicOr MonthlyShedding :=
  match parseHM raw.start_time with
  | none => .panic
  | some start =>
    match parseHM raw.finsh_time with
    | none => .panic
    | some finsh =>
      let goes_over_midnight := timeLt finsh start
      let date := if goes_over_midnight then "01" else "02"
      match parseRFC3339 ("1970-01-01T" ++ raw.start_time ++ ":00+02:00") with
      | none => .panic
      | some st =>
        match parseRFC3339 ("1970-01-" ++ date ++ "T" ++ raw.finsh_time ++ ":00+02:00") with
        | none => .panic
        | some ft =>
          .ok ⟨st, ft, raw.stage, raw.date_of_month, goes_over_midnight⟩

/-- When every element maps to `.ok`, `mapPanic` returns exactly the mapped
list, in order. -/
theorem mapPanic_ok {α β : Type} {f : α → PanicOr β} :
    ∀ {l : List α} {ys : List β}, mapPanic f l = .ok ys →
      l.map f = ys.map PanicOr.ok := by
  intro l
  induction l with
  | nil =>
    intro ys h
    simp only [mapPanic] at h
    cases h
    simp
  | cons x xs ih =>
    intro ys h
    simp only [mapPanic] at h
    cases hx : f x with
    | panic => rw [hx] at h; exact absurd h (by simp)
    | ok y =>
      rw [hx] at h
      cases hr : mapPanic f xs with
      | panic => rw [hr] at h; exact absurd h (by simp)
      | ok zs =>
        rw [hr] at h
        cases h
        simp [hx, ih hr]

/-- A single panicking element makes the whole `mapPanic` panic, wherever it
sits in the list. -/
theorem mapPanic_panic_of_mem {α β : Type} {f : α → PanicOr β} :
    ∀ {l : List α} {r : α}, r ∈ l → f r = .panic → mapPanic f l = .panic := by
  intro l
  induction l with
  | nil => intro r hr _; cases hr
  | cons x xs ih =>
    intro r hr hfr
    simp only [mapPanic]
    cases hx : f x with
    | panic => rfl
    | ok y =>
      cases hr with
      | head => rw [hfr] at hx; cases hx
      | tail _ htl => rw [ih htl hfr]

/-- C1: refuted by the code.  On the spec's own example — start `"22:00"`,
finish `"00:30"`, stage 4, day 15 — the conversion sets `goes_over_midnight`
to true but anchors `finsh_time` to 1970-01-**01**T00:30:00+02:00, the same
reference day as `start_time`, not one day later: line 128 of `structs.rs`
picks date string `"01"` in the crosses-midnight branch (and `"02"`
otherwise), the inverse of what the claim, the spec, and the struct's own
doc comment state. -/
theorem monthly_crosses_midnight_finish_anchored_day1_bug :
    MonthlyShedding.fromRaw ⟨"22:00", "00:30", 4, 15⟩ =
      .ok ⟨⟨1970, 1, 1, 22, 0, 0, 0, 7200⟩, ⟨1970, 1, 1, 0, 30, 0, 0, 7200⟩,
        4, 15, true⟩ := by
  decide

/-- C2: refuted by the code.  For start `"06:00"` = finish `"06:00"` (the
`start ≤ finish` case) the conversion does set `goes_over_midnight := false`,
but it anchors `finsh_time` to reference day **2** (1970-01-02) while
`start_time` sits on day 1 — the two anchored timestamps do not share a
calendar date, and the duration `finsh_time - start_time` of the
equal-clock-times example is 86400 seconds, not zero.  Cause: the inverted
date selection on line 128 of `structs.rs`. -/
theorem monthly_no_midnight_finish_anchored_day2_bug :
    MonthlyShedding.fromRaw ⟨"06:00", "06:00", 2, 10⟩ =
      .ok ⟨⟨1970, 1, 1, 6, 0, 0, 0, 7200⟩, ⟨1970, 1, 2, 6, 0, 0, 0, 7200⟩,
        2, 10, false⟩ ∧
    durSecs ⟨1970, 1, 1, 6, 0, 0, 0, 7200⟩ ⟨1970, 1, 2, 6, 0, 0, 0, 7200⟩ =
      86400 := by
  constructor
  · decide
  · decide

/-- C3: refuted by the code.  For start `"23:00"`, finish `"01:00"` (a
crosses-midnight interval) the conversion anchors both timestamps to
reference day 1 (line 128 of `structs.rs` picks `"01"` exactly when the
interval crosses midnight), so the duration `finsh_time - start_time` is
-79200 seconds — negative, contradicting the claimed always-non-negative
duration that the two-day anchoring scheme was meant to guarantee. -/
theorem monthly_duration_negative_when_crossing_midnight_bug :
    MonthlyShedding.fromRaw ⟨"23:00", "01:00", 1, 5⟩ =
      .ok ⟨⟨1970, 1, 1, 23, 0, 0, 0, 7200⟩, ⟨1970, 1, 1, 1, 0, 0, 0, 7200⟩,
        1, 5, true⟩ ∧
    durSecs ⟨1970, 1, 1, 23, 0, 0, 0, 7200⟩ ⟨1970, 1, 1, 1, 0, 0, 0, 7200⟩ =
      -79200 := by
  constructor
  · decide
  · decide

/-- C10: confirmed.  The time string `"7:00"` is accepted by the `"%H:%M"`
clock-time parse (chrono numeric items take one or two digits), yet the
monthly conversion still panics, because the raw string is re-embedded
verbatim into the RFC 3339 template `1970-01-ddT7:00:00+02:00`, whose hour
field must be exactly two digits. -/
theorem lenient_hm_parse_rejected_by_rfc3339_template :
    parseHM "7:00" = some (7, 0) ∧
    MonthlyShedding.fromRaw ⟨"7:00", "08:00", 1, 1⟩ = .panic := by
  constructor
  · decide
  · decide

/-- C4: confirmed.  Whenever both time fields parse as clock times and the
conversion succeeds, `goes_over_midnight` is true exactly when the finish
clock time is strictly earlier (lexicographically on hour, then minute) than
the start clock time; in particular equal clock times give `false`. -/
theorem goes_over_midnight_iff_finish_clock_before_start
    (raw : RawMonthlyShedding) (h1 m1 h2 m2 : Nat) (mm : MonthlyShedding)
    (hs : parseHM raw.start_time = some (h1, m1))
    (hf : parseHM raw.finsh_time = some (h2, m2))
    (hm : MonthlyShedding.fromRaw raw = .ok mm) :
    mm.goes_over_midnight = true ↔ (h2 < h1 ∨ (h2 = h1 ∧ m2 < m1)) := by
  simp only [MonthlyShedding.fromRaw, hs, hf] at hm
  split at hm
  · cases hm
  · split at hm
    · cases hm
    · cases hm
      simp [timeLt]

/-- C5 (amended): whenever a record of the `changes` or of the
`historical_changes` list has a start or a finish string that does not parse
as RFC 3339 once `"+02:00"` is appended, the single-event conversion panics
(the `From` impl calls `.expect`, aborting — it does not return a tagged
`MalformedTimestamp` error value), and aggregating the whole schedule
likewise panics, so no partial `ManuallyInputSchedule` is produced. -/
theorem unparseable_single_event_panics_no_partial_schedule
    (r : RawShedding) (raw : RawManuallyInputSchedule)
    (hmem : r ∈ raw.changes ∨ r ∈ raw.historical_changes)
    (hbad : parseRFC3339 (r.start ++ "+02:00") = none ∨
      parseRFC3339 (r.finsh ++ "+02:00") = none) :
    Shedding.fromRaw r = .panic ∧
    ManuallyInputSchedule.fromRaw raw = .panic := by
  have hr : Shedding.fromRaw r = .panic := by
    unfold Shedding.fromRaw
    cases hbad with
    | inl hb => rw [hb]
    | inr hb =>
      cases hs : parseRFC3339 (r.start ++ "+02:00") with
      | none => rfl
      | some a => rw [hb]
  refine ⟨hr, ?_⟩
  unfold ManuallyInputSchedule.fromRaw
  cases hmem with
  | inl hmem => rw [mapPanic_panic_of_mem hmem hr]
  | inr hmem =>
    cases hc : mapPanic Shedding.fromRaw raw.changes with
    | panic => rfl
    | ok cs => rw [mapPanic_panic_of_mem hmem hr]

/-- C5 (counterexample to the claim as stated): on the spec's example — a
schedule whose `changes` holds a record with start `"not-a-time"` — the
conversion's outcome is `PanicOr.panic`, the embedding of a Rust panic
raised by `.expect` in `structs.rs` lines 66–72: the code aborts instead of
surfacing a `MalformedTimestamp` value through a tagged success/failure
result (no such error type exists in the code). -/
theorem unparseable_single_event_is_panic_not_tagged_cx :
    Shedding.fromRaw ⟨"not-a-time", "2024-06-01T20:00:00", 1, "sched"⟩ =
      .panic ∧
    ManuallyInputSchedule.fromRaw
        ⟨[⟨"not-a-time", "2024-06-01T20:00:00", 1, "sched"⟩], []⟩ =
      .panic := by
  constructor
  · decide
  · decide

/-- C6: confirmed.  A successful aggregation is exactly the single-event
conversion mapped over `changes` and over `historical_changes`
independently, preserving order, with a 1:1 index correspondence and equal
lengths. -/
theorem schedule_aggregation_maps_normalizer
    (raw : RawManuallyInputSchedule) (s : ManuallyInputSchedule)
    (h : ManuallyInputSchedule.fromRaw raw = .ok s) :
    raw.changes.map Shedding.fromRaw = s.changes.map PanicOr.ok ∧
    raw.historical_changes.map Shedding.fromRaw =
      s.historical_changes.map PanicOr.ok ∧
    s.changes.length = raw.changes.length ∧
    s.historical_changes.length = raw.historical_changes.length := by
  unfold ManuallyInputSchedule.fromRaw at h
  split at h
  · cases h
  next cs hcs =>
    split at h
    · cases h
    next hs hhs =>
      cases h
      have e1 := mapPanic_ok hcs
      have e2 := mapPanic_ok hhs
      refine ⟨e1, e2, ?_, ?_⟩
      · have := congrArg List.length e1
        simpa using this.symm
      · have := congrArg List.length e2
        simpa using this.symm

/-- C7: confirmed.  When both raw strings parse as RFC 3339 after the fixed
(not configurable) `"+02:00"` suffix is appended, the single-event
conversion returns exactly those two parses as `start` and `finsh`, with
`stage` and `source` copied unchanged. -/
theorem single_event_normalizer_appends_offset_and_copies
    (raw : RawShedding) (a b : DateTimeFO)
    (hs : parseRFC3339 (raw.start ++ "+02:00") = some a)
    (hf : parseRFC3339 (raw.finsh ++ "+02:00") = some b) :
    Shedding.fromRaw raw = .ok ⟨a, b, raw.stage, raw.source⟩ := by
  unfold Shedding.fromRaw
  rw [hs, hf]

/-- C8 (counterexample to the claim as stated): the claim's own input — start
`"2024-06-01T18:00"` with an earlier finish `"2024-06-01T17:00"` — does not
normalize successfully: chrono's RFC 3339 grammar demands seconds, so
`"2024-06-01T18:00+02:00"` fails to parse and the conversion panics. -/
theorem single_event_minutes_only_panics_cx :
    Shedding.fromRaw ⟨"2024-06-01T18:00", "2024-06-01T17:00", 2, "x"⟩ =
      .panic := by
  decide

/-- C8 (amended): with seconds present the same out-of-order interval —
finish `"2024-06-01T17:00:00"` textually and temporally one hour before
start `"2024-06-01T18:00:00"` — normalizes successfully (negative duration
and all): the conversion checks no `finish > start` invariant. -/
theorem single_event_no_ordering_invariant_with_seconds :
    Shedding.fromRaw ⟨"2024-06-01T18:00:00", "2024-06-01T17:00:00", 2, "x"⟩ =
      .ok ⟨⟨2024, 6, 1, 18, 0, 0, 0, 7200⟩, ⟨2024, 6, 1, 17, 0, 0, 0, 7200⟩,
        2, "x"⟩ ∧
    durSecs ⟨2024, 6, 1, 18, 0, 0, 0, 7200⟩ ⟨2024, 6, 1, 17, 0, 0, 0, 7200⟩ =
      -3600 := by
  constructor
  · decide
  · decide

/-- C9: confirmed.  Every valid zero-padded 24-hour `"HH:MM"` string —
`pad2 h ++ ":" ++ pad2 m` with `h < 24`, `m < 60` ranges over exactly those —
parses under `"%H:%M"` and re-formats back to itself unchanged. -/
theorem hhmm_parse_format_roundtrip :
    ∀ h : Nat, h < 24 → ∀ m : Nat, m < 60 →
      (parseHM (pad2 h ++ ":" ++ pad2 m)).map formatHM =
        some (pad2 h ++ ":" ++ pad2 m) := by
  decide

/-- Witness for C9 at `"07:05"`. -/
theorem hhmm_parse_format_roundtrip_witness :
    7 < 24 ∧ 5 < 60 ∧
    (parseHM (pad2 7 ++ ":" ++ pad2 5)).map formatHM =
      some (pad2 7 ++ ":" ++ pad2 5) :=
  ⟨by decide, by decide, hhmm_parse_format_roundtrip 7 (by decide) 5 (by decide)⟩

/-- Witness for C4 at the equal-clock-times input `"12:00"`/`"12:00"`:
`goes_over_midnight` comes out `false`. -/
theorem goes_over_midnight_iff_witness :
    parseHM "12:00" = some (12, 0) ∧
    MonthlyShedding.fromRaw ⟨"12:00", "12:00", 1, 1⟩ =
      .ok ⟨⟨1970, 1, 1, 12, 0, 0, 0, 7200⟩, ⟨1970, 1, 2, 12, 0, 0, 0, 7200⟩,
        1, 1, false⟩ ∧
    ((MonthlyShedding.mk ⟨1970, 1, 1, 12, 0, 0, 0, 7200⟩
        ⟨1970, 1, 2, 12, 0, 0, 0, 7200⟩ 1 1 false).goes_over_midnight = true ↔
      (12 < 12 ∨ (12 = 12 ∧ 0 < 0))) :=
  ⟨by decide, by decide,
    goes_over_midnight_iff_finish_clock_before_start
      ⟨"12:00", "12:00", 1, 1⟩ 12 0 12 0
      ⟨⟨1970, 1, 1, 12, 0, 0, 0, 7200⟩, ⟨1970, 1, 2, 12, 0, 0, 0, 7200⟩,
        1, 1, false⟩
      (by decide) (by decide) (by decide)⟩

/-- Witness for the amended C5: a schedule whose second `historical_changes`
record has the unparseable finish string `"bad-finish"` panics as a whole,
exercising the finish-string and historical-changes cases of the theorem. -/
theorem unparseable_single_event_witness :
    ((⟨"2024-06-03T06:00:00", "bad-finish", 1, "w"⟩ : RawShedding) ∈
        (RawManuallyInputSchedule.mk
          [⟨"2024-06-02T06:00:00", "2024-06-02T08:00:00", 2, "v"⟩]
          [⟨"2023-05-01T10:00:00", "2023-05-01T12:00:00", 3, "u"⟩,
           ⟨"2024-06-03T06:00:00", "bad-finish", 1, "w"⟩]).changes ∨
      (⟨"2024-06-03T06:00:00", "bad-finish", 1, "w"⟩ : RawShedding) ∈
        (RawManuallyInputSchedule.mk
          [⟨"2024-06-02T06:00:00", "2024-06-02T08:00:00", 2, "v"⟩]
          [⟨"2023-05-01T10:00:00", "2023-05-01T12:00:00", 3, "u"⟩,
           ⟨"2024-06-03T06:00:00", "bad-finish", 1, "w"⟩]).historical_changes) ∧
    (parseRFC3339
        ((RawShedding.mk "2024-06-03T06:00:00" "bad-finish" 1 "w").start ++
          "+02:00") = none ∨
      parseRFC3339
        ((RawShedding.mk "2024-06-03T06:00:00" "bad-finish" 1 "w").finsh ++
          "+02:00") = none) ∧
    (Shedding.fromRaw ⟨"2024-06-03T06:00:00", "bad-finish", 1, "w"⟩ = .panic ∧
      ManuallyInputSchedule.fromRaw
        ⟨[⟨"2024-06-02T06:00:00", "2024-06-02T08:00:00", 2, "v"⟩],
         [⟨"2023-05-01T10:00:00", "2023-05-01T12:00:00", 3, "u"⟩,
          ⟨"2024-06-03T06:00:00", "bad-finish", 1, "w"⟩]⟩ = .panic) :=
  ⟨by decide, by decide,
    unparseable_single_event_panics_no_partial_schedule
      ⟨"2024-06-03T06:00:00", "bad-finish", 1, "w"⟩
      ⟨[⟨"2024-06-02T06:00:00", "2024-06-02T08:00:00", 2, "v"⟩],
       [⟨"2023-05-01T10:00:00", "2023-05-01T12:00:00", 3, "u"⟩,
        ⟨"2024-06-03T06:00:00", "bad-finish", 1, "w"⟩]⟩
      (by decide) (by decide)⟩

/-- Witness for C6 on the spec's shape `changes = [A, B]`,
`historical_changes = [C]`. -/
theorem schedule_aggregation_maps_normalizer_witness :
    ManuallyInputSchedule.fromRaw
        ⟨[⟨"2024-06-01T18:00:00", "2024-06-01T20:00:00", 2, "a"⟩,
          ⟨"2024-06-02T06:00:00", "2024-06-02T08:30:00", 3, "b"⟩],
         [⟨"2023-01-15T10:00:00", "2023-01-15T12:00:00", 1, "c"⟩]⟩ =
      .ok ⟨[⟨⟨2024, 6, 1, 18, 0, 0, 0, 7200⟩, ⟨2024, 6, 1, 20, 0, 0, 0, 7200⟩,
              2, "a"⟩,
            ⟨⟨2024, 6, 2, 6, 0, 0, 0, 7200⟩, ⟨2024, 6, 2, 8, 30, 0, 0, 7200⟩,
              3, "b"⟩],
           [⟨⟨2023, 1, 15, 10, 0, 0, 0, 7200⟩, ⟨2023, 1, 15, 12, 0, 0, 0, 7200⟩,
              1, "c"⟩]⟩ ∧
    ((RawManuallyInputSchedule.mk
        [⟨"2024-06-01T18:00:00", "2024-06-01T20:00:00", 2, "a"⟩,
         ⟨"2024-06-02T06:00:00", "2024-06-02T08:30:00", 3, "b"⟩]
        [⟨"2023-01-15T10:00:00", "2023-01-15T12:00:00", 1, "c"⟩]).changes.map
          Shedding.fromRaw =
        (ManuallyInputSchedule.mk
          [⟨⟨2024, 6, 1, 18, 0, 0, 0, 7200⟩, ⟨2024, 6, 1, 20, 0, 0, 0, 7200⟩,
             2, "a"⟩,
           ⟨⟨2024, 6, 2, 6, 0, 0, 0, 7200⟩, ⟨2024, 6, 2, 8, 30, 0, 0, 7200⟩,
             3, "b"⟩]
          [⟨⟨2023, 1, 15, 10, 0, 0, 0, 7200⟩, ⟨2023, 1, 15, 12, 0, 0, 0, 7200⟩,
             1, "c"⟩]).changes.map PanicOr.ok ∧
      (RawManuallyInputSchedule.mk
        [⟨"2024-06-01T18:00:00", "2024-06-01T20:00:00", 2, "a"⟩,
         ⟨"2024-06-02T06:00:00", "2024-06-02T08:30:00", 3, "b"⟩]
        [⟨"2023-01-15T10:00:00",
          "2023-01-15T12:00:00", 1, "c"⟩]).historical_changes.map
            Shedding.fromRaw =
        (ManuallyInputSchedule.mk
          [⟨⟨2024, 6, 1, 18, 0, 0, 0, 7200⟩, ⟨2024, 6, 1, 20, 0, 0, 0, 7200⟩,
             2, "a"⟩,
           ⟨⟨2024, 6, 2, 6, 0, 0, 0, 7200⟩, ⟨2024, 6, 2, 8, 30, 0, 0, 7200⟩,
             3, "b"⟩]
          [⟨⟨2023, 1, 15, 10, 0, 0, 0, 7200⟩, ⟨2023, 1, 15, 12, 0, 0, 0, 7200⟩,
             1, "c"⟩]).historical_changes.map PanicOr.ok ∧
      (ManuallyInputSchedule.mk
          [⟨⟨2024, 6, 1, 18, 0, 0, 0, 7200⟩, ⟨2024, 6, 1, 20, 0, 0, 0, 7200⟩,
             2, "a"⟩,
           ⟨⟨2024, 6, 2, 6, 0, 0, 0, 7200⟩, ⟨2024, 6, 2, 8, 30, 0, 0, 7200⟩,
             3, "b"⟩]
          [⟨⟨2023, 1, 15, 10, 0, 0, 0, 7200⟩, ⟨2023, 1, 15, 12, 0, 0, 0, 7200⟩,
             1, "c"⟩]).changes.length =
        (RawManuallyInputSchedule.mk
          [⟨"2024-06-01T18:00:00", "2024-06-01T20:00:00", 2, "a"⟩,
           ⟨"2024-06-02T06:00:00", "2024-06-02T08:30:00", 3, "b"⟩]
          [⟨"2023-01-15T10:00:00", "2023-01-15T12:00:00", 1, "c"⟩]).changes.length ∧
      (ManuallyInputSchedule.mk
          [⟨⟨2024, 6, 1, 18, 0, 0, 0, 7200⟩, ⟨2024, 6, 1, 20, 0, 0, 0, 7200⟩,
             2, "a"⟩,
           ⟨⟨2024, 6, 2, 6, 0, 0, 0, 7200⟩, ⟨2024, 6, 2, 8, 30, 0, 0, 7200⟩,
             3, "b"⟩]
          [⟨⟨2023, 1, 15, 10, 0, 0, 0, 7200⟩, ⟨2023, 1, 15, 12, 0, 0, 0, 7200⟩,
             1, "c"⟩]).historical_changes.length =
        (RawManuallyInputSchedule.mk
          [⟨"2024-06-01T18:00:00", "2024-06-01T20:00:00", 2, "a"⟩,
           ⟨"2024-06-02T06:00:00", "2024-06-02T08:30:00", 3, "b"⟩]
          [⟨"2023-01-15T10:00:00",
            "2023-01-15T12:00:00", 1, "c"⟩]).historical_changes.length) :=
  ⟨by decide,
    schedule_aggregation_maps_normalizer
      ⟨[⟨"2024-06-01T18:00:00", "2024-06-01T20:00:00", 2, "a"⟩,
        ⟨"2024-06-02T06:00:00", "2024-06-02T08:30:00", 3, "b"⟩],
       [⟨"2023-01-15T10:00:00", "2023-01-15T12:00:00", 1, "c"⟩]⟩
      ⟨[⟨⟨2024, 6, 1, 18, 0, 0, 0, 7200⟩, ⟨2024, 6, 1, 20, 0, 0, 0, 7200⟩,
          2, "a"⟩,
        ⟨⟨2024, 6, 2, 6, 0, 0, 0, 7200⟩, ⟨2024, 6, 2, 8, 30, 0, 0, 7200⟩,
          3, "b"⟩],
       [⟨⟨2023, 1, 15, 10, 0, 0, 0, 7200⟩, ⟨2023, 1, 15, 12, 0, 0, 0, 7200⟩,
          1, "c"⟩]⟩
      (by decide)⟩

/-- Witness for C7 at start `"2024-06-01T18:00:00"`, finish
`"2024-06-01T19:30:00"`, stage 3, source `"cpt"`. -/
theorem single_event_normalizer_witness :
    parseRFC3339
        ((RawShedding.mk "2024-06-01T18:00:00" "2024-06-01T19:30:00" 3
          "cpt").start ++ "+02:00") =
      some ⟨2024, 6, 1, 18, 0, 0, 0, 7200⟩ ∧
    Shedding.fromRaw ⟨"2024-06-01T18:00:00", "2024-06-01T19:30:00", 3, "cpt"⟩ =
      .ok ⟨⟨2024, 6, 1, 18, 0, 0, 0, 7200⟩, ⟨2024, 6, 1, 19, 30, 0, 0, 7200⟩,
        (RawShedding.mk "2024-06-01T18:00:00" "2024-06-01T19:30:00" 3
          "cpt").stage,
        (RawShedding.mk "2024-06-01T18:00:00" "2024-06-01T19:30:00" 3
          "cpt").source⟩ :=
  ⟨by decide,
    single_event_normalizer_appends_offset_and_copies
      ⟨"2024-06-01T18:00:00", "2024-06-01T19:30:00", 3, "cpt"⟩
      ⟨2024, 6, 1, 18, 0, 0, 0, 7200⟩ ⟨2024, 6, 1, 19, 30, 0, 0, 7200⟩
      (by decide) (by decide)⟩

end EskomCalendar
